import Mathlib

/-!
Verification of the dispatch-and-correlation core of the remote-inference
API (FastAPI submitter in `src/app.py`, Redis broker, GPU worker loop in
`src/gpu_worker.py`).

The embedding models:
* the Job Record Store (SQLAlchemy tables `ApiLog`, `Detection`,
  `BoundingBox`) as lists of records with autoincrement counters
  (the fresh-id behaviour of the database is modelled from the spec:
  identifiers are monotonically assigned and unique);
* Redis as a total map from key strings to lists of wire messages,
  with `LPUSH` prepending at the head and `BRPOP` removing at the tail;
* the wire codec (pydantic `model_dump_json` / `model_validate_json`,
  whose schema classes `JobCreate`/`JobProcess`/`JobResult` are not part
  of the checked sources) as a tagged message type: encoding is the
  constructor, decoding succeeds exactly on messages of the right tag
  (modelled from the spec's Result Correlator wire shapes);
* exceptions as `Except` values threaded with the state reached at the
  raise point, mirroring the `try`/`except` nesting of the Python code
  line by line.

Numeric fields that are floats in the source (confidences, coordinates,
processing times) are modelled as `Int`/`Nat`; no claim depends on their
arithmetic, only on identities and counts.
-/

/-- Name of the shared work queue (`REDIS_DETECTION_QUEUE` in `app.py`,
`REDIS_QUEUE` in `gpu_worker.py`; both are the string "detection_jobs"). -/
def REDIS_DETECTION_QUEUE : String := "detection_jobs"

/-- Default model name used by the worker (`DEFAULT_MODEL` in `gpu_worker.py`). -/
def DEFAULT_MODEL : String := "yolov8n"

/-- Slot-naming function of the Result Correlator: both `app.py` (line 106)
and `gpu_worker.py` (lines 188/206) compute the per-job response-slot key
with the same string formatting of the integer job id. -/
def result_key (job_id : Nat) : String := "result_" ++ toString job_id

/-- One detection produced by inference (`process_image` output dict). -/
structure Det where
  class_name : String
  confidence : Int
  x1 : Int
  y1 : Int
  x2 : Int
  y2 : Int
  deriving DecidableEq, Repr

/-- Row of the `api_logs` table as used by the dispatch core
(`log_api_call` creates it, `store_detection_results_in_db` updates it). -/
structure ApiLog where
  id : Nat
  user_id : Nat
  api_key_id : Nat
  endpoint : String
  request_size : Nat
  status_code : Nat
  model_name : String
  deriving DecidableEq, Repr

/-- Row of the `detections` table. -/
structure Detection where
  id : Nat
  job_id : Nat
  model_name : String
  image_width : Nat
  image_height : Nat
  image_hash : String
  processing_time : Nat
  deriving DecidableEq, Repr

/-- Row of the `bounding_boxes` table. -/
structure BoundingBox where
  id : Nat
  detection_id : Nat
  class_name : String
  confidence : Int
  x1 : Int
  y1 : Int
  x2 : Int
  y2 : Int
  deriving DecidableEq, Repr

/-- The Job Record Store: the three tables plus autoincrement counters. -/
structure Store where
  apiLogs : List ApiLog
  detections : List Detection
  boxes : List BoundingBox
  nextLogId : Nat
  nextDetId : Nat
  nextBoxId : Nat
  deriving DecidableEq, Repr

/-- Wire shape of a job message (`JobCreate`/`JobProcess`: job id plus
base64 image payload). -/
structure JobMsg where
  job_id : Nat
  image : String
  deriving DecidableEq, Repr

/-- Wire shape of a result message (`JobResult`). -/
structure JobResultMsg where
  job_id : Nat
  success : Bool
  error_message : Option String := none
  processing_time : Option Nat := none
  detections_count : Option Nat := none
  deriving DecidableEq, Repr

/-- Modelled from the spec: messages carried by Redis are opaque encoded
records; encoding is injective and decoding succeeds exactly on messages
of the expected schema (`model_validate_json` raises otherwise). `junk`
stands for any string that parses as neither schema. -/
inductive WireMsg where
  | jobW (j : JobMsg)
  | resW (r : JobResultMsg)
  | junk (s : String)
  deriving DecidableEq, Repr

/-- Decoding a job message (`JobProcess.model_validate_json`): fails on
anything that is not an encoded job. -/
def decodeJobMsg : WireMsg → Except String JobMsg
  | WireMsg.jobW j => Except.ok j
  | _ => Except.error "Invalid job format"

/-- Decoding a result message (`JobResult.model_validate_json`). -/
def decodeResultMsg : WireMsg → Except String JobResultMsg
  | WireMsg.resW r => Except.ok r
  | _ => Except.error "Invalid result format"

/-- Redis state: every key holds a list of messages, head on the left. -/
def RedisState : Type := String → List WireMsg

/-- Pointwise update of one Redis key. -/
def redisSet (r : RedisState) (k : String) (l : List WireMsg) : RedisState :=
  fun k' => if k' = k then l else r k'

/-- `LPUSH key v`: prepend `v` at the head of the list stored at `key`. -/
def redisLpush (r : RedisState) (k : String) (v : WireMsg) : RedisState :=
  redisSet r k (v :: r k)

/-- `BRPOP key`: remove and return the element at the tail of the list
stored at `key`; `none` models the blocked/timed-out call (empty list). -/
def redisBrpop (r : RedisState) (k : String) : Option (WireMsg × RedisState) :=
  match (r k).getLast? with
  | none => none
  | some v => some (v, redisSet r k (r k).dropLast)

/-- Whole-system state: the Job Record Store plus Redis. -/
structure Sys where
  store : Store
  redis : RedisState

/-- `log_api_call` (`src/utils.py` lines 16-27): insert a new `ApiLog`
row, commit, and return the refreshed row carrying its fresh id.
The autoincrement id is modelled from the spec (monotonically assigned,
never reused). -/
def log_api_call (s : Store) (uid akid : Nat) (endpoint : String)
    (request_size : Nat) (status_code : Nat) (model_name : String) :
    Store × ApiLog :=
  let entry : ApiLog :=
    { id := s.nextLogId, user_id := uid, api_key_id := akid,
      endpoint := endpoint, request_size := request_size,
      status_code := status_code, model_name := model_name }
  ({ s with apiLogs := s.apiLogs ++ [entry], nextLogId := s.nextLogId + 1 },
   entry)

/-- One iteration of the `BoundingBox`-insertion loop of
`store_detection_results_in_db` (`gpu_worker.py` lines 127-129): append
one box row with the next autoincrement id. -/
def appendBoxes (detection_id : Nat) (acc : List BoundingBox × Nat)
    (d : Det) : List BoundingBox × Nat :=
  (acc.1 ++ [{ id := acc.2, detection_id := detection_id,
               class_name := d.class_name, confidence := d.confidence,
               x1 := d.x1, y1 := d.y1, x2 := d.x2, y2 := d.y2 }],
   acc.2 + 1)

/-- `GPUWorker.store_detection_results_in_db` (`gpu_worker.py` lines
90-131): if no `ApiLog` row matches the job id, print and return without
writing; otherwise update the log row, insert the `Detection` row and one
`BoundingBox` row per detection. -/
def store_detection_results_in_db (s : Store) (job_id : Nat)
    (model_name : String) (width height : Nat) (image_hash : String)
    (processing_time : Nat) (dets : List Det) : Store :=
  match s.apiLogs.find? (fun l => l.id == job_id) with
  | none => s
  | some _ =>
    let logs' := s.apiLogs.map (fun l =>
      if l.id == job_id then
        { l with model_name := model_name, status_code := 200 }
      else l)
    let dEntry : Detection :=
      { id := s.nextDetId, job_id := job_id, model_name := model_name,
        image_width := width, image_height := height,
        image_hash := image_hash, processing_time := processing_time }
    let bs := dets.foldl (appendBoxes dEntry.id) (s.boxes, s.nextBoxId)
    { s with apiLogs := logs',
             detections := s.detections ++ [dEntry],
             nextDetId := s.nextDetId + 1,
             boxes := bs.1,
             nextBoxId := bs.2 }

/-- Query of `app.py` lines 120-125: first `Detection` row whose `job_id`
matches. -/
def lookupDetection (s : Store) (job_id : Nat) : Option Detection :=
  s.detections.find? (fun d => d.job_id == job_id)

/-- The `bounding_boxes` relationship: rows of the box table that belong
to a given detection row. -/
def boxesOf (s : Store) (detection_id : Nat) : List BoundingBox :=
  s.boxes.filter (fun b => b.detection_id == detection_id)

/-- Response dictionary returned by `detect_objects` on success
(`app.py` lines 129-148). -/
structure BBoxDict where
  id : Nat
  class_name : String
  confidence : Int
  x1 : Int
  y1 : Int
  x2 : Int
  y2 : Int
  deriving DecidableEq, Repr

/-- The `detection_dict` payload of a 200 response (`app.py` lines 129-149). -/
structure DetectionDict where
  id : Nat
  job_id : Nat
  model_name : String
  image_width : Nat
  image_height : Nat
  processing_time : Nat
  bounding_boxes : List BBoxDict
  deriving DecidableEq, Repr

/-- Build the response dictionary from a persisted detection row and its
bounding boxes (`app.py` lines 129-148). -/
def mkDetectionDict (s : Store) (d : Detection) : DetectionDict :=
  { id := d.id, job_id := d.job_id, model_name := d.model_name,
    image_width := d.image_width, image_height := d.image_height,
    processing_time := d.processing_time,
    bounding_boxes := (boxesOf s d.id).map (fun b =>
      { id := b.id, class_name := b.class_name, confidence := b.confidence,
        x1 := b.x1, y1 := b.y1, x2 := b.x2, y2 := b.y2 }) }

/-- HTTP-level outcome of the `/detect` request. -/
inductive Outcome where
  | ok (d : DetectionDict)
  | httpError (status : Nat) (detail : String)
  deriving DecidableEq, Repr

/-- Result of the body of the inner `try` of `detect_objects` (`app.py`
lines 108-165): either a normal `return detection_dict`, or a raised
exception carrying the HTTP status and detail of the `HTTPException`. -/
inductive InnerRes where
  | ret (d : DetectionDict)
  | raised (status : Nat) (detail : String)
  deriving DecidableEq, Repr

/-- Submission phase of `detect_objects` (`app.py` lines 78-106): create
the job record via `log_api_call` with status 202 and model "queued",
then `LPUSH` the encoded job onto the detection queue. Returns the new
system state and the fresh job id. -/
def detect_objects_enqueue (sys : Sys) (uid akid : Nat)
    (request_size : Nat) (img : String) : Sys × Nat :=
  let r := log_api_call sys.store uid akid "/detect" request_size 202 "queued"
  let redis' := redisLpush sys.redis REDIS_DETECTION_QUEUE
    (WireMsg.jobW { job_id := r.2.id, image := img })
  ({ store := r.1, redis := redis' }, r.2.id)

/-- Body of the inner `try` of `detect_objects` (`app.py` lines 108-165):
`BRPOP` the response slot with the caller's timeout, parse the result
message, and branch exactly as the source does. Every `raise
HTTPException` in this region is recorded as `InnerRes.raised`. -/
def detect_objects_await_try (sys : Sys) (job_id : Nat) (timeout : Nat) :
    Sys × InnerRes :=
  match redisBrpop sys.redis (result_key job_id) with
  | none =>
    (sys, InnerRes.raised 408
      ("Detection timed out after " ++ toString timeout ++ " seconds"))
  | some (msg, redis') =>
    let sys' : Sys := { sys with redis := redis' }
    match decodeResultMsg msg with
    | Except.error _ =>
      (sys', InnerRes.raised 500 "result message failed validation")
    | Except.ok jr =>
      if jr.success then
        match lookupDetection sys'.store job_id with
        | some d => (sys', InnerRes.ret (mkDetectionDict sys'.store d))
        | none =>
          (sys', InnerRes.raised 500
            "Detection processed but not found in database")
      else
        (sys', InnerRes.raised 500
          ("Detection failed: " ++ jr.error_message.getD "None"))

/-- Waiting phase of `detect_objects` (`app.py` lines 108-171): the inner
`try` body, wrapped by `except Exception as redis_error`, which turns
every exception raised inside — `HTTPException`s included, since
`HTTPException` derives from `Exception` — into a fresh 408 timeout
`HTTPException`; that 408 then passes through `except HTTPException:
raise` unchanged. -/
def detect_objects_await (sys : Sys) (job_id : Nat) (timeout : Nat) :
    Sys × Outcome :=
  match detect_objects_await_try sys job_id timeout with
  | (s, InnerRes.ret d) => (s, Outcome.ok d)
  | (s, InnerRes.raised _ _) =>
    (s, Outcome.httpError 408
      ("Detection timed out after " ++ toString timeout ++ " seconds"))

/-- Environment of one worker iteration: the inference engine (which may
raise), the measured processing time, and fault switches for the two
external collaborators (database session and Redis publish), each of
which may raise in the source. -/
structure WorkerEnv where
  processImage : String → Except String (List Det × Nat × Nat × String)
  procTime : Nat
  dbDown : Bool
  slotDown : Bool

/-- Body of the inner `try` of `GPUWorker.run` (`gpu_worker.py` lines
159-195): run inference, persist the results, build the success
`JobResult` and `LPUSH` it to the job's response slot. An `Except.error`
carries the error text together with the state already reached when the
exception was raised (committed writes are not rolled back). -/
def worker_try_body (env : WorkerEnv) (sys : Sys) (job : JobMsg) :
    Except (String × Sys) Sys :=
  match env.processImage job.image with
  | Except.error e => Except.error (e, sys)
  | Except.ok (dets, width, height, image_hash) =>
    if env.dbDown then Except.error ("database session failed", sys)
    else
      let store1 := store_detection_results_in_db sys.store job.job_id
        DEFAULT_MODEL width height image_hash env.procTime dets
      let sys1 : Sys := { sys with store := store1 }
      let res : JobResultMsg :=
        { job_id := job.job_id, success := true,
          processing_time := some env.procTime,
          detections_count := some dets.length }
      if env.slotDown then Except.error ("redis publish failed", sys1)
      else
        let redis1 := redisLpush sys1.redis (result_key job.job_id)
          (WireMsg.resW res)
        Except.ok { sys1 with redis := redis1 }

/-- The `except Exception as processing_error` handler of `GPUWorker.run`
(`gpu_worker.py` lines 197-211): build a failure `JobResult` carrying the
error text and `LPUSH` it to the job's response slot. The publish itself
may raise. -/
def worker_handle_fail (env : WorkerEnv) (sys : Sys) (job_id : Nat)
    (emsg : String) : Except (String × Sys) Sys :=
  let res : JobResultMsg :=
    { job_id := job_id, success := false, error_message := some emsg }
  if env.slotDown then Except.error ("redis publish failed", sys)
  else
    let redis1 := redisLpush sys.redis (result_key job_id) (WireMsg.resW res)
    Except.ok { sys with redis := redis1 }

/-- Processing of one decoded job: the inner `try` with its handler
attached (`gpu_worker.py` lines 159-211). -/
def worker_process_job (env : WorkerEnv) (sys : Sys) (job : JobMsg) :
    Except (String × Sys) Sys :=
  match worker_try_body env sys job with
  | Except.ok s => Except.ok s
  | Except.error (e, s) => worker_handle_fail env s job.job_id e

/-- Body of one iteration of the `while True` loop of `GPUWorker.run`
(`gpu_worker.py` lines 142-211), before the outer handler: `BRPOP` the
queue (no message models the still-blocking call), decode the job —
on decode failure print and `continue` — then process it. -/
def worker_body (env : WorkerEnv) (sys : Sys) : Except (String × Sys) Sys :=
  match redisBrpop sys.redis REDIS_DETECTION_QUEUE with
  | none => Except.ok sys
  | some (msg, redis') =>
    let sys1 : Sys := { sys with redis := redis' }
    match decodeJobMsg msg with
    | Except.error _ => Except.ok sys1
    | Except.ok job => worker_process_job env sys1 job

/-- One full iteration of `GPUWorker.run` including the outer `except
Exception` handler (`gpu_worker.py` lines 213-215): any exception that
escapes the body is printed, the loop sleeps one second and proceeds with
the state reached at the raise point. -/
def worker_step (env : WorkerEnv) (sys : Sys) : Sys :=
  match worker_body env sys with
  | Except.ok s => s
  | Except.error (_, s) => s

/-- Well-formedness of the Job Record Store: the autoincrement counters
strictly bound every identifier already present (the invariant the
database's monotone id assignment maintains). -/
def Store.WF (s : Store) : Prop :=
  (∀ l ∈ s.apiLogs, l.id < s.nextLogId) ∧
  (∀ d ∈ s.detections, d.id < s.nextDetId) ∧
  (∀ d ∈ s.detections, d.job_id < s.nextLogId) ∧
  (∀ b ∈ s.boxes, b.detection_id < s.nextDetId)

instance (s : Store) : Decidable s.WF := by
  unfold Store.WF; infer_instance

/-- Reading the key just written. -/
theorem redisSet_same (r : RedisState) (k : String) (l : List WireMsg) :
    redisSet r k l k = l := by
  simp [redisSet]

/-- Reading a different key after a write. -/
theorem redisSet_other (r : RedisState) (k k' : String) (l : List WireMsg)
    (h : k' ≠ k) : redisSet r k l k' = r k' := by
  simp [redisSet, h]

/-- Decimal digit list of a natural number (most significant first),
mirroring what `Nat.toDigitsCore` accumulates. -/
def reprChars (n : Nat) : List Char :=
  if h : n / 10 = 0 then [Nat.digitChar (n % 10)]
  else reprChars (n / 10) ++ [Nat.digitChar (n % 10)]
decreasing_by
  exact Nat.div_lt_self (Nat.pos_of_ne_zero (fun h0 => h (by simp [h0]))) (by decide)

/-- `Nat.toDigitsCore` with enough fuel produces the digit list followed
by the accumulator. -/
theorem toDigitsCore_eq_reprChars :
    ∀ (fuel n : Nat) (acc : List Char), n < fuel →
      Nat.toDigitsCore 10 fuel n acc = reprChars n ++ acc := by
  intro fuel
  induction fuel with
  | zero => intro n acc h; omega
  | succ f ih =>
    intro n acc h
    rw [Nat.toDigitsCore]
    by_cases hd : n / 10 = 0
    · simp [hd, reprChars]
    · have hlt : n / 10 < f := by
        have h1 : n / 10 < n :=
          Nat.div_lt_self (Nat.pos_of_ne_zero (fun h0 => hd (by simp [h0]))) (by decide)
        omega
      simp only [hd, if_false]
      rw [ih (n / 10) (Nat.digitChar (n % 10) :: acc) hlt]
      conv_rhs => rw [reprChars]
      simp [hd]

/-- Decimal string representation in terms of the digit list. -/
theorem repr_eq_reprChars (n : Nat) : Nat.repr n = (reprChars n).asString := by
  show (Nat.toDigits 10 n).asString = _
  rw [Nat.toDigits, toDigitsCore_eq_reprChars (n + 1) n [] (Nat.lt_succ_self n)]
  simp

/-- Decode a decimal digit list back to the number it denotes. -/
def decChars (l : List Char) : Nat :=
  l.foldl (fun a c => a * 10 + (c.toNat - 48)) 0

/-- Code point of the digit character of `m < 10` recovers `m`. -/
theorem digitChar_toNat_sub (m : Nat) (h : m < 10) :
    (Nat.digitChar m).toNat - 48 = m := by
  interval_cases m <;> decide

/-- Decoding round-trips the digit list of every natural number. -/
theorem decChars_reprChars (n : Nat) : decChars (reprChars n) = n := by
  induction n using Nat.strong_induction_on with
  | _ n ih =>
    rw [reprChars]
    by_cases hd : n / 10 = 0
    · simp only [hd, dif_pos]
      have hlt : n % 10 < 10 := Nat.mod_lt _ (by decide)
      simp [decChars, digitChar_toNat_sub _ hlt]
      omega
    · simp only [hd, dif_neg, not_false_iff]
      have h1 : n / 10 < n :=
        Nat.div_lt_self (Nat.pos_of_ne_zero (fun h0 => hd (by simp [h0]))) (by decide)
      have hlt : n % 10 < 10 := Nat.mod_lt _ (by decide)
      simp only [decChars, List.foldl_append, List.foldl_cons, List.foldl_nil]
      have hih := ih (n / 10) h1
      simp only [decChars] at hih
      rw [hih, digitChar_toNat_sub _ hlt]
      omega

/-- The decimal string representation of natural numbers is injective. -/
theorem repr_injective : Function.Injective Nat.repr := by
  intro a b h
  rw [repr_eq_reprChars, repr_eq_reprChars] at h
  have hc : reprChars a = reprChars b := by
    simpa [List.asString, String.ext_iff] using h
  have hdec := congrArg decChars hc
  rwa [decChars_reprChars, decChars_reprChars] at hdec

/-- The slot-naming function is injective. -/
theorem result_key_injective : Function.Injective result_key := by
  intro a b h
  have h2 := congrArg String.data h
  simp only [result_key, String.data_append] at h2
  have h3 := List.append_cancel_left h2
  exact repr_injective (String.ext h3)

/-- No response-slot key collides with the work-queue key. -/
theorem result_key_ne_queue (n : Nat) :
    result_key n ≠ REDIS_DETECTION_QUEUE := by
  intro h
  have h2 := congrArg (fun s => s.data.head?) h
  simp [result_key, REDIS_DETECTION_QUEUE, String.data_append] at h2

/-- Reading a key other than the one pushed to. -/
theorem redisLpush_other (r : RedisState) (k k' : String) (v : WireMsg)
    (h : k' ≠ k) : redisLpush r k v k' = r k' :=
  redisSet_other r k k' _ h

/-- Reading the key just pushed to. -/
theorem redisLpush_same (r : RedisState) (k : String) (v : WireMsg) :
    redisLpush r k v k = v :: r k :=
  redisSet_same r k _

/-- Publishing to a response slot never changes the work queue. -/
theorem redisLpush_result_key_queue (r : RedisState) (n : Nat) (v : WireMsg) :
    redisLpush r (result_key n) v REDIS_DETECTION_QUEUE
      = r REDIS_DETECTION_QUEUE :=
  redisLpush_other _ _ _ _ (Ne.symm (result_key_ne_queue n))

/-- State in which an `Except`-modelled computation ends, whether it
returned normally or raised. -/
def exceptState : Except (String × Sys) Sys → Sys
  | Except.ok s => s
  | Except.error (_, s) => s

/-- One worker iteration is the body's end state: the outer handler of
`GPUWorker.run` keeps the state reached at the raise point. -/
theorem worker_step_eq (env : WorkerEnv) (sys : Sys) :
    worker_step env sys = exceptState (worker_body env sys) := by
  unfold worker_step exceptState
  rcases worker_body env sys with s | ⟨e, s⟩ <;> rfl

/-- A worker iteration that pops a message which fails to decode ends in
the state with just that message consumed. -/
theorem worker_step_of_decode_error (env : WorkerEnv) (sys : Sys)
    (m : WireMsg) (r' : RedisState) (e : String)
    (hpop : redisBrpop sys.redis REDIS_DETECTION_QUEUE = some (m, r'))
    (hdec : decodeJobMsg m = Except.error e) :
    worker_step env sys = { sys with redis := r' } := by
  unfold worker_step worker_body
  simp only [hpop, hdec]

/-- A worker iteration that pops a message which decodes to a job ends in
the end state of processing that job from the popped state. -/
theorem worker_step_of_decode_ok (env : WorkerEnv) (sys : Sys)
    (m : WireMsg) (r' : RedisState) (job : JobMsg)
    (hpop : redisBrpop sys.redis REDIS_DETECTION_QUEUE = some (m, r'))
    (hdec : decodeJobMsg m = Except.ok job) :
    worker_step env sys =
      exceptState (worker_process_job env { sys with redis := r' } job) := by
  unfold worker_step worker_body
  simp only [hpop, hdec]
  rcases worker_process_job env { sys with redis := r' } job with s | ⟨e, s⟩ <;> rfl

/-- Processing a job never touches the work queue: whatever branch is
taken, the queue's contents are those of the state the job was popped
into. -/
theorem worker_process_job_queue (env : WorkerEnv) (sys : Sys) (job : JobMsg) :
    (exceptState (worker_process_job env sys job)).redis REDIS_DETECTION_QUEUE
      = sys.redis REDIS_DETECTION_QUEUE := by
  unfold worker_process_job worker_try_body worker_handle_fail exceptState
  rcases env.processImage job.image with e | ⟨dets, w, h, ih⟩ <;>
    by_cases hdb : env.dbDown <;> by_cases hsl : env.slotDown <;>
    simp [hdb, hsl, redisLpush_result_key_queue]

/-- The Submitter's enqueue operation (`app.py` line 104): `LPUSH` of the
encoded job onto the shared detection queue. -/
def enqueueJob (r : RedisState) (m : WireMsg) : RedisState :=
  redisLpush r REDIS_DETECTION_QUEUE m

/-- Repeatedly perform the Worker's blocking pop (`gpu_worker.py` line
144) and collect the messages obtained, for a given number of pops. -/
def drainQueue (r : RedisState) : Nat → List WireMsg
  | 0 => []
  | n + 1 =>
    match redisBrpop r REDIS_DETECTION_QUEUE with
    | none => []
    | some (m, r') => m :: drainQueue r' n

/-- Queue contents after a sequence of enqueues: newest at the head. -/
theorem enqueueAll_queue (js : List WireMsg) :
    ∀ r : RedisState,
      (js.foldl enqueueJob r) REDIS_DETECTION_QUEUE
        = js.reverse ++ r REDIS_DETECTION_QUEUE := by
  induction js with
  | nil => intro r; rfl
  | cons j js ih =>
    intro r
    simp only [List.foldl_cons, List.reverse_cons]
    rw [ih (enqueueJob r j)]
    simp [enqueueJob, redisLpush_same]

/-- Draining a queue holding `l.reverse` (oldest at the tail) yields `l`. -/
theorem drainQueue_spec (l : List WireMsg) :
    ∀ r : RedisState, r REDIS_DETECTION_QUEUE = l.reverse →
      drainQueue r l.length = l := by
  induction l with
  | nil => intro r _; rfl
  | cons j l ih =>
    intro r hr
    have hr' : r REDIS_DETECTION_QUEUE = l.reverse ++ [j] := by
      simpa using hr
    have hlast : (r REDIS_DETECTION_QUEUE).getLast? = some j := by
      rw [hr']
      simp
    have hdrop : (r REDIS_DETECTION_QUEUE).dropLast = l.reverse := by
      rw [hr']
      simp
    show (match redisBrpop r REDIS_DETECTION_QUEUE with
      | none => []
      | some (m, r') => m :: drainQueue r' l.length) = j :: l
    unfold redisBrpop
    rw [hlast]
    simp only []
    rw [hdrop]
    have := ih (redisSet r REDIS_DETECTION_QUEUE l.reverse)
      (redisSet_same r REDIS_DETECTION_QUEUE l.reverse)
    rw [this]

/-- C4: the slot-naming function used by Submitter and Worker is the one
pure function `result_key` of the job identifier alone (both `app.py`
line 106 and `gpu_worker.py` lines 188/206 embed to it); it is injective,
so two jobs with distinct identifiers get distinct Response Slot names,
and a publish into one job's slot leaves every other job's slot
untouched: each caller can only receive the result published for its own
job. -/
theorem C4_slot_naming_injective (a b : Nat) (h : a ≠ b) :
    result_key a ≠ result_key b ∧
    ∀ (r : RedisState) (v : WireMsg),
      redisLpush r (result_key b) v (result_key a) = r (result_key a) := by
  have hne : result_key a ≠ result_key b := fun hk => h (result_key_injective hk)
  exact ⟨hne, fun r v => redisLpush_other r _ _ v hne⟩

/-- Witness for C4 at job identifiers 1 and 2. -/
theorem C4_slot_naming_injective_witness :
    result_key 1 ≠ result_key 2 ∧
    redisLpush (fun _ => []) (result_key 2) (WireMsg.junk "x") (result_key 1)
      = [] := by
  have h := C4_slot_naming_injective 1 2 (by decide)
  exact ⟨h.1, h.2 (fun _ => []) (WireMsg.junk "x")⟩

/-- C5: the Broker Queue is FIFO. The Submitter's enqueue prepends at the
head of the Redis list, the Worker's blocking pop removes at the tail,
and therefore a single worker draining the queue after any sequence of
enqueues into an initially empty queue obtains the jobs in exactly the
order they were enqueued, oldest first. -/
theorem C5_broker_queue_fifo (js : List WireMsg) (r0 : RedisState)
    (hempty : r0 REDIS_DETECTION_QUEUE = []) :
    (∀ (r : RedisState) (m : WireMsg),
      enqueueJob r m REDIS_DETECTION_QUEUE = m :: r REDIS_DETECTION_QUEUE) ∧
    (∀ (r : RedisState) (l : List WireMsg) (m : WireMsg),
      r REDIS_DETECTION_QUEUE = l ++ [m] →
      redisBrpop r REDIS_DETECTION_QUEUE
        = some (m, redisSet r REDIS_DETECTION_QUEUE l)) ∧
    drainQueue (js.foldl enqueueJob r0) js.length = js := by
  refine ⟨fun r m => redisLpush_same r _ m, fun r l m hl => ?_, ?_⟩
  · unfold redisBrpop
    rw [hl]
    simp
  · apply drainQueue_spec
    rw [enqueueAll_queue, hempty, List.append_nil]

/-- Witness for C5: three concrete jobs enqueued into an empty broker are
drained in enqueue order. -/
theorem C5_broker_queue_fifo_witness :
    drainQueue
      ([WireMsg.junk "a", WireMsg.junk "b", WireMsg.junk "c"].foldl
        enqueueJob (fun _ => [])) 3
      = [WireMsg.junk "a", WireMsg.junk "b", WireMsg.junk "c"] :=
  (C5_broker_queue_fifo
    [WireMsg.junk "a", WireMsg.junk "b", WireMsg.junk "c"]
    (fun _ => []) rfl).2.2

/-- Inverting a successful blocking pop. -/
theorem redisBrpop_inv (r : RedisState) (k : String) (m : WireMsg)
    (r' : RedisState) (h : redisBrpop r k = some (m, r')) :
    (r k).getLast? = some m ∧ r' = redisSet r k (r k).dropLast := by
  unfold redisBrpop at h
  rcases hl : (r k).getLast? with _ | v <;> rw [hl] at h
  · simp at h
  · simp only [Option.some.injEq, Prod.mk.injEq] at h
    exact ⟨by rw [h.1], h.2.symm⟩

/-- An environment whose inference succeeds with no detections and whose
collaborators are healthy. -/
def plainEnv : WorkerEnv :=
  { processImage := fun _ => Except.ok ([], 0, 0, ""),
    procTime := 0, dbDown := false, slotDown := false }

/-- A store holding exactly the queued record of job 1. -/
def sampleStore : Store :=
  { apiLogs := [{ id := 1, user_id := 1, api_key_id := 1,
                  endpoint := "/detect", request_size := 3,
                  status_code := 202, model_name := "queued" }],
    detections := [], boxes := [],
    nextLogId := 2, nextDetId := 1, nextBoxId := 1 }

/-- A system whose every Redis key holds one undecodable message. -/
def junkSys : Sys :=
  { store := sampleStore, redis := fun _ => [WireMsg.junk "bad"] }

/-- C8: a popped message that fails to decode as a job is logged and the
loop continues: the end state of the iteration is the popped state
unchanged — the store is untouched (no inference output persisted), every
response slot is untouched (nothing published), and the message itself is
gone from the queue and never re-enqueued: the job is permanently lost. -/
theorem C8_decode_failure_drops_job (env : WorkerEnv) (sys : Sys)
    (m : WireMsg) (r' : RedisState) (e : String)
    (hpop : redisBrpop sys.redis REDIS_DETECTION_QUEUE = some (m, r'))
    (hdec : decodeJobMsg m = Except.error e) :
    worker_step env sys = { sys with redis := r' } ∧
    (worker_step env sys).store = sys.store ∧
    (∀ n : Nat, (worker_step env sys).redis (result_key n)
      = sys.redis (result_key n)) ∧
    (worker_step env sys).redis REDIS_DETECTION_QUEUE
      = (sys.redis REDIS_DETECTION_QUEUE).dropLast := by
  have hstep := worker_step_of_decode_error env sys m r' e hpop hdec
  have hinv := redisBrpop_inv sys.redis REDIS_DETECTION_QUEUE m r' hpop
  refine ⟨hstep, by rw [hstep], fun n => ?_, ?_⟩
  · rw [hstep]
    show r' (result_key n) = sys.redis (result_key n)
    rw [hinv.2]
    exact redisSet_other _ _ _ _ (result_key_ne_queue n)
  · rw [hstep]
    show r' REDIS_DETECTION_QUEUE = _
    rw [hinv.2]
    exact redisSet_same _ _ _

/-- Witness for C8: a concrete junk message is consumed with no other
effect. -/
theorem C8_decode_failure_drops_job_witness :
    (worker_step plainEnv junkSys).store = junkSys.store ∧
    (worker_step plainEnv junkSys).redis REDIS_DETECTION_QUEUE = [] := by
  have h := C8_decode_failure_drops_job plainEnv junkSys (WireMsg.junk "bad")
    (redisSet junkSys.redis REDIS_DETECTION_QUEUE []) "Invalid job format"
    rfl rfl
  refine ⟨h.2.1, ?_⟩
  rw [h.2.2.2]
  rfl

/-- C9: the Worker Loop never terminates because of a job-processing
error. First, every exception that escapes the loop body — inference,
persistence, or a publish into a slot whose reader has gone — is caught
by the outer handler, which resumes the loop in the state reached at the
raise point. Second, in every iteration that popped a job, whatever
faults the environment injects, the loop proceeds having consumed exactly
that message: the queue afterwards is the popped queue. -/
theorem C9_worker_loop_never_crashes (env : WorkerEnv) (sys : Sys) :
    (∀ e s, worker_body env sys = Except.error (e, s) →
      worker_step env sys = s) ∧
    (∀ m r', redisBrpop sys.redis REDIS_DETECTION_QUEUE = some (m, r') →
      (worker_step env sys).redis REDIS_DETECTION_QUEUE
        = r' REDIS_DETECTION_QUEUE) := by
  constructor
  · intro e s h
    rw [worker_step_eq, h]
    rfl
  · intro m r' hpop
    rcases hdec : decodeJobMsg m with e | job
    · rw [worker_step_of_decode_error env sys m r' e hpop hdec]
    · rw [worker_step_of_decode_ok env sys m r' job hpop hdec]
      exact worker_process_job_queue env { sys with redis := r' } job

/-- An environment in which inference raises and the publish to the
response slot raises as well (its reader is gone). -/
def failPubEnv : WorkerEnv :=
  { processImage := fun _ => Except.error "boom",
    procTime := 0, dbDown := false, slotDown := true }

/-- A system whose every Redis key holds one encoded job for job id 1. -/
def jobSys : Sys :=
  { store := sampleStore,
    redis := fun _ => [WireMsg.jobW { job_id := 1, image := "img" }] }

/-- Witness for C9: with inference raising and the slot publish raising
too, the iteration still ends in the popped state with the job consumed. -/
theorem C9_worker_loop_never_crashes_witness :
    worker_step failPubEnv jobSys
      = { jobSys with redis := redisSet jobSys.redis REDIS_DETECTION_QUEUE [] } ∧
    (worker_step failPubEnv jobSys).redis REDIS_DETECTION_QUEUE = [] := by
  have h := C9_worker_loop_never_crashes failPubEnv jobSys
  constructor
  · exact h.1 "redis publish failed"
      { jobSys with redis := redisSet jobSys.redis REDIS_DETECTION_QUEUE [] }
      rfl
  · have h2 := h.2 (WireMsg.jobW { job_id := 1, image := "img" })
      (redisSet jobSys.redis REDIS_DETECTION_QUEUE []) rfl
    rw [h2]
    rfl

/-- An environment whose inference raises with text "boom" and whose
collaborators are healthy. -/
def failEnv : WorkerEnv :=
  { processImage := fun _ => Except.error "boom",
    procTime := 0, dbDown := false, slotDown := false }

/-- A system with the queued record of job 1 and exactly one encoded job
message for job 1 on the work queue. -/
def queueJobSys : Sys :=
  { store := sampleStore,
    redis := fun k => if k = REDIS_DETECTION_QUEUE
      then [WireMsg.jobW { job_id := 1, image := "img" }] else [] }

/-- C3 counterexample: at a concrete job on which inference raises, the
worker publishes the failure acknowledgment carrying the error text, but
the Job Record Store is left byte-for-byte unchanged — job 1's record
still has status code 202 and model name "queued", so it is not marked
failed in any sense, contradicting the claim. -/
theorem C3_counterexample :
    (worker_step failEnv queueJobSys).store = sampleStore ∧
    (worker_step failEnv queueJobSys).store.apiLogs
      = [{ id := 1, user_id := 1, api_key_id := 1, endpoint := "/detect",
           request_size := 3, status_code := 202, model_name := "queued" }] ∧
    (worker_step failEnv queueJobSys).redis (result_key 1)
      = [WireMsg.resW { job_id := 1, success := false,
                        error_message := some "boom" }] := by
  refine ⟨rfl, rfl, ?_⟩
  show redisLpush _ (result_key 1) _ (result_key 1) = _
  rw [redisLpush_same]
  rfl

/-- C3 amended: for every decoded job on which an exception is raised
during processing or persistence — formalised as the inner try body
raising before any state change, which covers inference failure and a
failing database session — the worker publishes a failure acknowledgment
carrying the error text to that job's Response Slot, but does not touch
the Job Record Store: the job's record is not marked failed. -/
theorem C3_failure_ack_without_failed_mark (env : WorkerEnv) (sys : Sys)
    (m : WireMsg) (r' : RedisState) (job : JobMsg) (e : String)
    (hpop : redisBrpop sys.redis REDIS_DETECTION_QUEUE = some (m, r'))
    (hdec : decodeJobMsg m = Except.ok job)
    (hslot : env.slotDown = false)
    (hfail : worker_try_body env { sys with redis := r' } job
      = Except.error (e, { sys with redis := r' })) :
    (worker_step env sys).store = sys.store ∧
    (worker_step env sys).redis (result_key job.job_id)
      = WireMsg.resW { job_id := job.job_id, success := false,
                       error_message := some e }
        :: r' (result_key job.job_id) := by
  have hstep := worker_step_of_decode_ok env sys m r' job hpop hdec
  rw [hstep]
  unfold worker_process_job
  rw [hfail]
  unfold worker_handle_fail
  rw [hslot]
  simp only [Bool.false_eq_true, if_false, exceptState, redisLpush_same]
  exact ⟨trivial, trivial⟩

/-- Witness for C3's amended theorem at the concrete failing job 1. -/
theorem C3_failure_ack_without_failed_mark_witness :
    (worker_step failEnv queueJobSys).store = queueJobSys.store ∧
    (worker_step failEnv queueJobSys).redis (result_key 1)
      = [WireMsg.resW { job_id := 1, success := false,
                        error_message := some "boom" }] := by
  have h := C3_failure_ack_without_failed_mark failEnv queueJobSys
    (WireMsg.jobW { job_id := 1, image := "img" })
    (redisSet queueJobSys.redis REDIS_DETECTION_QUEUE [])
    { job_id := 1, image := "img" } "boom" rfl rfl rfl rfl
  exact ⟨h.1, h.2⟩

/-- Persistence is a no-op when no `ApiLog` row matches the job id
(the early return of `store_detection_results_in_db`). -/
theorem store_detection_none (s : Store) (job_id : Nat)
    (model_name : String) (width height : Nat) (image_hash : String)
    (processing_time : Nat) (dets : List Det)
    (h : s.apiLogs.find? (fun l => l.id == job_id) = none) :
    store_detection_results_in_db s job_id model_name width height
      image_hash processing_time dets = s := by
  unfold store_detection_results_in_db
  rw [h]

/-- End state of a worker iteration whose popped job decodes, whose
inference succeeds and whose collaborators are healthy: results are
persisted and the success acknowledgment is pushed onto the job's
response slot. -/
theorem worker_success_step (env : WorkerEnv) (sys : Sys) (m : WireMsg)
    (r' : RedisState) (job : JobMsg) (dets : List Det) (w h : Nat)
    (ihash : String)
    (hpop : redisBrpop sys.redis REDIS_DETECTION_QUEUE = some (m, r'))
    (hdec : decodeJobMsg m = Except.ok job)
    (hok : env.processImage job.image = Except.ok (dets, w, h, ihash))
    (hdb : env.dbDown = false) (hsl : env.slotDown = false) :
    worker_step env sys =
      { store := store_detection_results_in_db sys.store job.job_id
          DEFAULT_MODEL w h ihash env.procTime dets,
        redis := redisLpush r' (result_key job.job_id)
          (WireMsg.resW { job_id := job.job_id, success := true,
                          processing_time := some env.procTime,
                          detections_count := some dets.length }) } := by
  rw [worker_step_of_decode_ok env sys m r' job hpop hdec]
  unfold worker_process_job worker_try_body
  rw [hok]
  simp only [hdb, hsl, Bool.false_eq_true, if_false, exceptState]

/-- C10: a job whose identifier has no matching record reaches the early
return of the persistence step — nothing at all is written — yet the
worker still publishes a success acknowledgment to the job's slot; a
Submitter waiting there observes success, looks the detection up, finds
nothing, and so the inner try of `detect_objects` raises 500 "Detection
processed but not found in database". -/
theorem C10_missing_record_success_ack (env : WorkerEnv) (sys : Sys)
    (m : WireMsg) (r' : RedisState) (job : JobMsg) (dets : List Det)
    (w h : Nat) (ihash : String) (timeout : Nat)
    (hpop : redisBrpop sys.redis REDIS_DETECTION_QUEUE = some (m, r'))
    (hdec : decodeJobMsg m = Except.ok job)
    (hok : env.processImage job.image = Except.ok (dets, w, h, ihash))
    (hdb : env.dbDown = false) (hsl : env.slotDown = false)
    (hnolog : sys.store.apiLogs.find? (fun l => l.id == job.job_id) = none)
    (hnodet : lookupDetection sys.store job.job_id = none)
    (hslotempty : sys.redis (result_key job.job_id) = []) :
    (worker_step env sys).store = sys.store ∧
    (worker_step env sys).redis (result_key job.job_id)
      = [WireMsg.resW { job_id := job.job_id, success := true,
                        processing_time := some env.procTime,
                        detections_count := some dets.length }] ∧
    lookupDetection (worker_step env sys).store job.job_id = none ∧
    (detect_objects_await_try (worker_step env sys) job.job_id timeout).2
      = InnerRes.raised 500 "Detection processed but not found in database" := by
  have hstep := worker_success_step env sys m r' job dets w h ihash
    hpop hdec hok hdb hsl
  have hinv := redisBrpop_inv sys.redis REDIS_DETECTION_QUEUE m r' hpop
  have hstore : (worker_step env sys).store = sys.store := by
    rw [hstep]
    exact store_detection_none _ _ _ _ _ _ _ _ hnolog
  have hr'slot : r' (result_key job.job_id) = [] := by
    rw [hinv.2, redisSet_other _ _ _ _ (result_key_ne_queue _), hslotempty]
  have hslot : (worker_step env sys).redis (result_key job.job_id)
      = [WireMsg.resW { job_id := job.job_id, success := true,
                        processing_time := some env.procTime,
                        detections_count := some dets.length }] := by
    rw [hstep]
    show redisLpush r' (result_key job.job_id) _ (result_key job.job_id) = _
    rw [redisLpush_same, hr'slot]
  refine ⟨hstore, hslot, by rw [hstore]; exact hnodet, ?_⟩
  unfold detect_objects_await_try
  have hb : redisBrpop (worker_step env sys).redis (result_key job.job_id)
      = some (WireMsg.resW { job_id := job.job_id, success := true,
                             processing_time := some env.procTime,
                             detections_count := some dets.length },
              redisSet (worker_step env sys).redis (result_key job.job_id) []) := by
    unfold redisBrpop
    rw [hslot]
    simp
  rw [hb]
  simp only [decodeResultMsg, if_true]
  have hlook : lookupDetection (worker_step env sys).store job.job_id = none := by
    rw [hstore]; exact hnodet
  rw [hlook]

/-- A system with an empty store (job 1 has no record) and one encoded
job message for job 1 on the work queue. -/
def orphanJobSys : Sys :=
  { store := { apiLogs := [], detections := [], boxes := [],
               nextLogId := 1, nextDetId := 1, nextBoxId := 1 },
    redis := fun k => if k = REDIS_DETECTION_QUEUE
      then [WireMsg.jobW { job_id := 1, image := "img" }] else [] }

/-- Witness for C10 at the concrete record-less job 1. -/
theorem C10_missing_record_success_ack_witness :
    (worker_step plainEnv orphanJobSys).store = orphanJobSys.store ∧
    (worker_step plainEnv orphanJobSys).redis (result_key 1)
      = [WireMsg.resW { job_id := 1, success := true,
                        processing_time := some 0,
                        detections_count := some 0 }] ∧
    (detect_objects_await_try (worker_step plainEnv orphanJobSys) 1 30).2
      = InnerRes.raised 500 "Detection processed but not found in database" := by
  have h := C10_missing_record_success_ack plainEnv orphanJobSys
    (WireMsg.jobW { job_id := 1, image := "img" })
    (redisSet orphanJobSys.redis REDIS_DETECTION_QUEUE [])
    { job_id := 1, image := "img" } [] 0 0 "" 30
    rfl rfl rfl rfl rfl rfl rfl rfl
  exact ⟨h.1, h.2.1, h.2.2.2⟩

/-- Every job message on the work queue has a backing record in the Job
Record Store. -/
def queueBacked (sys : Sys) : Prop :=
  ∀ m ∈ sys.redis REDIS_DETECTION_QUEUE, ∀ j : JobMsg,
    m = WireMsg.jobW j → ∃ l ∈ sys.store.apiLogs, l.id = j.job_id

/-- C6: the submission phase of `detect_objects` commits the job record
(through `log_api_call`) and only then pushes the job message: the
identifier returned is the store's fresh counter value, never issued to
any existing record; the post-state store already holds the committed
record in status 202/"queued"; the message pushed carries exactly that
identifier; the "every queue message has a backing record" invariant is
preserved; and the counter strictly advances past the issued identifier,
so no identifier is ever issued twice. -/
theorem C6_record_before_enqueue (sys : Sys) (uid akid rsize : Nat)
    (img : String) (hWF : sys.store.WF) :
    (detect_objects_enqueue sys uid akid rsize img).2
      = sys.store.nextLogId ∧
    (∀ l ∈ sys.store.apiLogs,
      l.id ≠ (detect_objects_enqueue sys uid akid rsize img).2) ∧
    (∃ l ∈ (detect_objects_enqueue sys uid akid rsize img).1.store.apiLogs,
      l.id = (detect_objects_enqueue sys uid akid rsize img).2 ∧
      l.status_code = 202 ∧ l.model_name = "queued") ∧
    (detect_objects_enqueue sys uid akid rsize img).1.redis
        REDIS_DETECTION_QUEUE
      = WireMsg.jobW
          { job_id := (detect_objects_enqueue sys uid akid rsize img).2,
            image := img }
        :: sys.redis REDIS_DETECTION_QUEUE ∧
    (queueBacked sys →
      queueBacked (detect_objects_enqueue sys uid akid rsize img).1) ∧
    (detect_objects_enqueue sys uid akid rsize img).1.store.WF ∧
    (detect_objects_enqueue sys uid akid rsize img).1.store.nextLogId
      = (detect_objects_enqueue sys uid akid rsize img).2 + 1 := by
  obtain ⟨hWF1, hWF2, hWF3, hWF4⟩ := hWF
  refine ⟨rfl, ?_, ?_, ?_, ?_, ?_, rfl⟩
  · intro l hl
    exact Nat.ne_of_lt (hWF1 l hl)
  · refine ⟨{ id := sys.store.nextLogId, user_id := uid, api_key_id := akid,
              endpoint := "/detect", request_size := rsize,
              status_code := 202, model_name := "queued" }, ?_, rfl, rfl, rfl⟩
    simp [detect_objects_enqueue, log_api_call]
  · exact redisLpush_same sys.redis REDIS_DETECTION_QUEUE
      (WireMsg.jobW { job_id := sys.store.nextLogId, image := img })
  · intro hq m hm j hj
    have hm' : m ∈ WireMsg.jobW
        { job_id := sys.store.nextLogId, image := img }
        :: sys.redis REDIS_DETECTION_QUEUE := by
      simpa [detect_objects_enqueue, log_api_call, redisLpush, redisSet]
        using hm
    rcases List.mem_cons.mp hm' with hm1 | hm2
    · refine ⟨{ id := sys.store.nextLogId, user_id := uid,
                api_key_id := akid, endpoint := "/detect",
                request_size := rsize, status_code := 202,
                model_name := "queued" }, ?_, ?_⟩
      · simp [detect_objects_enqueue, log_api_call]
      · rw [hm1] at hj
        injection hj with hj2
        rw [← hj2]
    · obtain ⟨l, hl, hlid⟩ := hq m hm2 j hj
      refine ⟨l, ?_, hlid⟩
      simp [detect_objects_enqueue, log_api_call, hl]
  · refine ⟨?_, hWF2, ?_, hWF4⟩
    · intro l hl
      have hl' : l ∈ sys.store.apiLogs ∨
          l = { id := sys.store.nextLogId, user_id := uid,
                api_key_id := akid, endpoint := "/detect",
                request_size := rsize, status_code := 202,
                model_name := "queued" } := by
        simpa [detect_objects_enqueue, log_api_call] using hl
      show l.id < sys.store.nextLogId + 1
      rcases hl' with hl1 | hl2
      · exact Nat.lt_succ_of_lt (hWF1 l hl1)
      · rw [hl2]
        exact Nat.lt_succ_self _
    · intro d hd
      exact Nat.lt_succ_of_lt (hWF3 d hd)

/-- A system with the queued record of job 1 and nothing on any Redis
key. -/
def idleSys : Sys := { store := sampleStore, redis := fun _ => [] }

/-- Witness for C6: submitting against the concrete one-record store
issues the fresh identifier 2, commits its record and enqueues exactly
its message. -/
theorem C6_record_before_enqueue_witness :
    (detect_objects_enqueue idleSys 7 9 3 "img").2 = 2 ∧
    (∃ l ∈ (detect_objects_enqueue idleSys 7 9 3 "img").1.store.apiLogs,
      l.id = (detect_objects_enqueue idleSys 7 9 3 "img").2 ∧
      l.status_code = 202 ∧ l.model_name = "queued") ∧
    (detect_objects_enqueue idleSys 7 9 3 "img").1.store.nextLogId = 3 := by
  have h := C6_record_before_enqueue idleSys 7 9 3 "img" (by decide)
  exact ⟨h.1, h.2.2.1, by rw [h.2.2.2.2.2.2, h.1]; rfl⟩

/-- The box-insertion loop adds exactly one box per detection for the new
detection row. -/
theorem appendBoxes_foldl_filter (did : Nat) (dets : List Det) :
    ∀ (bs : List BoundingBox) (nid : Nat),
      ((dets.foldl (appendBoxes did) (bs, nid)).1.filter
        (fun b => b.detection_id == did)).length
      = (bs.filter (fun b => b.detection_id == did)).length + dets.length := by
  induction dets with
  | nil => intro bs nid; simp
  | cons d ds ih =>
    intro bs nid
    simp only [List.foldl_cons, appendBoxes]
    rw [ih]
    simp [List.filter_append]
    omega

/-- The successful persistence path: when the backing record exists, the
new `Detection` row is the one `lookupDetection` finds for the job, and
exactly one `BoundingBox` row per inference detection belongs to it. -/
theorem store_detection_write (s : Store) (job_id : Nat) (mn : String)
    (w h : Nat) (ihash : String) (pt : Nat) (dets : List Det) (l0 : ApiLog)
    (hfind : s.apiLogs.find? (fun l => l.id == job_id) = some l0)
    (hWFdet : ∀ d ∈ s.detections, d.job_id ≠ job_id)
    (hWFbox : ∀ b ∈ s.boxes, b.detection_id ≠ s.nextDetId) :
    lookupDetection
        (store_detection_results_in_db s job_id mn w h ihash pt dets) job_id
      = some { id := s.nextDetId, job_id := job_id, model_name := mn,
               image_width := w, image_height := h, image_hash := ihash,
               processing_time := pt } ∧
    (boxesOf (store_detection_results_in_db s job_id mn w h ihash pt dets)
      s.nextDetId).length = dets.length := by
  unfold store_detection_results_in_db
  rw [hfind]
  constructor
  · unfold lookupDetection
    simp only []
    rw [List.find?_append]
    have hnone : s.detections.find? (fun d => d.job_id == job_id) = none :=
      List.find?_eq_none.mpr (fun d hd => by simp [hWFdet d hd])
    rw [hnone]
    simp [List.find?]
  · unfold boxesOf
    simp only []
    rw [appendBoxes_foldl_filter]
    have hnil : s.boxes.filter (fun b => b.detection_id == s.nextDetId)
        = [] :=
      List.filter_eq_nil_iff.mpr (fun b hb => by simp [hWFbox b hb])
    rw [hnil]
    simp

/-- End-to-end effect of submitting a job into an idle system and letting
one healthy worker iteration process it: the persisted `Detection` row is
found by job id, it owns one box row per inference detection, and the
success acknowledgment carrying the detection count sits unread in the
job's response slot. -/
theorem submit_worker_post (env : WorkerEnv) (sys0 : Sys)
    (uid akid rsize : Nat) (img : String) (dets : List Det)
    (w h : Nat) (ihash : String)
    (hWF : sys0.store.WF)
    (hq : sys0.redis REDIS_DETECTION_QUEUE = [])
    (hslot : sys0.redis (result_key sys0.store.nextLogId) = [])
    (hok : env.processImage img = Except.ok (dets, w, h, ihash))
    (hdb : env.dbDown = false) (hsl : env.slotDown = false) :
    lookupDetection
        (worker_step env
          (detect_objects_enqueue sys0 uid akid rsize img).1).store
        sys0.store.nextLogId
      = some { id := sys0.store.nextDetId, job_id := sys0.store.nextLogId,
               model_name := DEFAULT_MODEL, image_width := w,
               image_height := h, image_hash := ihash,
               processing_time := env.procTime } ∧
    (boxesOf
        (worker_step env
          (detect_objects_enqueue sys0 uid akid rsize img).1).store
        sys0.store.nextDetId).length = dets.length ∧
    (worker_step env
        (detect_objects_enqueue sys0 uid akid rsize img).1).redis
        (result_key sys0.store.nextLogId)
      = [WireMsg.resW { job_id := sys0.store.nextLogId, success := true,
                        processing_time := some env.procTime,
                        detections_count := some dets.length }] := by
  obtain ⟨hWF1, hWF2, hWF3, hWF4⟩ := hWF
  set sys1 := (detect_objects_enqueue sys0 uid akid rsize img).1 with hsys1
  have hq1 : sys1.redis REDIS_DETECTION_QUEUE
      = [WireMsg.jobW { job_id := sys0.store.nextLogId, image := img }] := by
    show redisLpush sys0.redis REDIS_DETECTION_QUEUE
      (WireMsg.jobW { job_id := sys0.store.nextLogId, image := img })
      REDIS_DETECTION_QUEUE = _
    rw [redisLpush_same, hq]
  have hpop : redisBrpop sys1.redis REDIS_DETECTION_QUEUE
      = some (WireMsg.jobW { job_id := sys0.store.nextLogId, image := img },
              redisSet sys1.redis REDIS_DETECTION_QUEUE []) := by
    unfold redisBrpop
    rw [hq1]
    simp
  have hstep := worker_success_step env sys1
    (WireMsg.jobW { job_id := sys0.store.nextLogId, image := img })
    (redisSet sys1.redis REDIS_DETECTION_QUEUE [])
    { job_id := sys0.store.nextLogId, image := img } dets w h ihash
    hpop rfl hok hdb hsl
  have hbase : sys0.store.apiLogs.find?
      (fun l => l.id == sys0.store.nextLogId) = none :=
    List.find?_eq_none.mpr (fun l hl => by
      simp [Nat.ne_of_lt (hWF1 l hl)])
  have hfind : sys1.store.apiLogs.find?
      (fun l => l.id == sys0.store.nextLogId) = some
      { id := sys0.store.nextLogId, user_id := uid, api_key_id := akid,
        endpoint := "/detect", request_size := rsize,
        status_code := 202, model_name := "queued" } := by
    show (sys0.store.apiLogs ++
      [({ id := sys0.store.nextLogId, user_id := uid, api_key_id := akid,
          endpoint := "/detect", request_size := rsize,
          status_code := 202, model_name := "queued" } : ApiLog)]).find?
      (fun l => l.id == sys0.store.nextLogId) = _
    rw [List.find?_append, hbase]
    simp [List.find?]
  have hw := store_detection_write sys1.store sys0.store.nextLogId
    DEFAULT_MODEL w h ihash env.procTime dets _ hfind
    (fun d hd => Nat.ne_of_lt (hWF3 d hd))
    (fun b hb => Nat.ne_of_lt (hWF4 b hb))
  refine ⟨?_, ?_, ?_⟩
  · rw [hstep]
    exact hw.1
  · rw [hstep]
    exact hw.2
  · rw [hstep]
    show redisLpush (redisSet sys1.redis REDIS_DETECTION_QUEUE [])
      (result_key sys0.store.nextLogId)
      (WireMsg.resW { job_id := sys0.store.nextLogId, success := true,
                      processing_time := some env.procTime,
                      detections_count := some dets.length })
      (result_key sys0.store.nextLogId) = _
    rw [redisLpush_same,
      redisSet_other _ _ _ _ (result_key_ne_queue _)]
    show _ :: (redisLpush sys0.redis REDIS_DETECTION_QUEUE
      (WireMsg.jobW { job_id := sys0.store.nextLogId, image := img }))
      (result_key sys0.store.nextLogId) = _
    rw [redisLpush_other _ _ _ _ (result_key_ne_queue _), hslot]

/-- C2: a job submitted into an idle well-formed system and processed by
one healthy worker iteration before the caller wakes yields, at the
caller, exactly the result the worker persisted: the response is the 200
detection dictionary built from the persisted row, its job identifier is
the submitted job's identifier, the number of bounding boxes returned
equals the number of inference detections, which equals both the number
of box rows persisted for that detection and the count carried by the
acknowledgment the worker published to the job's Response Slot. -/
theorem C2_success_result_consistent (env : WorkerEnv) (sys0 : Sys)
    (uid akid rsize timeout : Nat) (img : String) (dets : List Det)
    (w h : Nat) (ihash : String)
    (hWF : sys0.store.WF)
    (hq : sys0.redis REDIS_DETECTION_QUEUE = [])
    (hslot : sys0.redis (result_key sys0.store.nextLogId) = [])
    (hok : env.processImage img = Except.ok (dets, w, h, ihash))
    (hdb : env.dbDown = false) (hsl : env.slotDown = false) :
    (detect_objects_await
        (worker_step env
          (detect_objects_enqueue sys0 uid akid rsize img).1)
        sys0.store.nextLogId timeout).2
      = Outcome.ok (mkDetectionDict
          (worker_step env
            (detect_objects_enqueue sys0 uid akid rsize img).1).store
          { id := sys0.store.nextDetId, job_id := sys0.store.nextLogId,
            model_name := DEFAULT_MODEL, image_width := w,
            image_height := h, image_hash := ihash,
            processing_time := env.procTime }) ∧
    (mkDetectionDict
        (worker_step env
          (detect_objects_enqueue sys0 uid akid rsize img).1).store
        { id := sys0.store.nextDetId, job_id := sys0.store.nextLogId,
          model_name := DEFAULT_MODEL, image_width := w,
          image_height := h, image_hash := ihash,
          processing_time := env.procTime }).job_id
      = sys0.store.nextLogId ∧
    (mkDetectionDict
        (worker_step env
          (detect_objects_enqueue sys0 uid akid rsize img).1).store
        { id := sys0.store.nextDetId, job_id := sys0.store.nextLogId,
          model_name := DEFAULT_MODEL, image_width := w,
          image_height := h, image_hash := ihash,
          processing_time := env.procTime }).bounding_boxes.length
      = dets.length ∧
    (boxesOf
        (worker_step env
          (detect_objects_enqueue sys0 uid akid rsize img).1).store
        sys0.store.nextDetId).length = dets.length ∧
    (worker_step env
        (detect_objects_enqueue sys0 uid akid rsize img).1).redis
        (result_key sys0.store.nextLogId)
      = [WireMsg.resW { job_id := sys0.store.nextLogId, success := true,
                        processing_time := some env.procTime,
                        detections_count := some dets.length }] := by
  have hpost := submit_worker_post env sys0 uid akid rsize img dets w h
    ihash hWF hq hslot hok hdb hsl
  set post := worker_step env
    (detect_objects_enqueue sys0 uid akid rsize img).1 with hpostdef
  have hb : redisBrpop post.redis (result_key sys0.store.nextLogId)
      = some (WireMsg.resW { job_id := sys0.store.nextLogId, success := true,
                             processing_time := some env.procTime,
                             detections_count := some dets.length },
              redisSet post.redis (result_key sys0.store.nextLogId) []) := by
    unfold redisBrpop
    rw [hpost.2.2]
    simp
  have htry : detect_objects_await_try post sys0.store.nextLogId timeout
      = (⟨post.store,
          redisSet post.redis (result_key sys0.store.nextLogId) []⟩,
         InnerRes.ret (mkDetectionDict post.store
          { id := sys0.store.nextDetId, job_id := sys0.store.nextLogId,
            model_name := DEFAULT_MODEL, image_width := w,
            image_height := h, image_hash := ihash,
            processing_time := env.procTime })) := by
    unfold detect_objects_await_try
    rw [hb]
    dsimp only [decodeResultMsg]
    rw [if_pos rfl]
    rw [hpost.1]
  refine ⟨?_, rfl, ?_, hpost.2.1, hpost.2.2⟩
  · unfold detect_objects_await
    rw [htry]
  · show ((boxesOf post.store sys0.store.nextDetId).map _).length
      = dets.length
    rw [List.length_map]
    exact hpost.2.1

/-- A concrete detection used by witnesses. -/
def sampleDet : Det :=
  { class_name := "cat", confidence := 9, x1 := 1, y1 := 2, x2 := 3, y2 := 4 }

/-- A healthy environment whose inference returns one detection on a
640x480 image in 5 time units. -/
def detEnv : WorkerEnv :=
  { processImage := fun _ => Except.ok ([sampleDet], 640, 480, "hash"),
    procTime := 5, dbDown := false, slotDown := false }

/-- Witness for C2 at the concrete one-detection job 2. -/
theorem C2_success_result_consistent_witness :
    (detect_objects_await
        (worker_step detEnv (detect_objects_enqueue idleSys 7 9 3 "img").1)
        2 30).2
      = Outcome.ok (mkDetectionDict
          (worker_step detEnv
            (detect_objects_enqueue idleSys 7 9 3 "img").1).store
          { id := 1, job_id := 2, model_name := DEFAULT_MODEL,
            image_width := 640, image_height := 480, image_hash := "hash",
            processing_time := 5 }) ∧
    (mkDetectionDict
        (worker_step detEnv
          (detect_objects_enqueue idleSys 7 9 3 "img").1).store
        { id := 1, job_id := 2, model_name := DEFAULT_MODEL,
          image_width := 640, image_height := 480, image_hash := "hash",
          processing_time := 5 }).bounding_boxes.length = 1 := by
  have h := C2_success_result_consistent detEnv idleSys 7 9 3 30 "img"
    [sampleDet] 640 480 "hash" (by decide) rfl rfl rfl rfl rfl
  exact ⟨h.1, h.2.2.1⟩

/-- C7: if the caller's wait elapses before any worker iteration runs,
`detect_objects` returns the 408 timeout error — not a crash, not a
result — and changes nothing: the job message is still in flight on the
queue. A later healthy worker iteration still persists the detection,
which remains retrievable from the Job Record Store by the job
identifier, while the completion message sits forever unread in the
abandoned Response Slot. -/
theorem C7_timeout_leaves_job_in_flight (env : WorkerEnv) (sys0 : Sys)
    (uid akid rsize timeout : Nat) (img : String) (dets : List Det)
    (w h : Nat) (ihash : String)
    (hWF : sys0.store.WF)
    (hq : sys0.redis REDIS_DETECTION_QUEUE = [])
    (hslot : sys0.redis (result_key sys0.store.nextLogId) = [])
    (hok : env.processImage img = Except.ok (dets, w, h, ihash))
    (hdb : env.dbDown = false) (hsl : env.slotDown = false) :
    (detect_objects_await (detect_objects_enqueue sys0 uid akid rsize img).1
        sys0.store.nextLogId timeout).2
      = Outcome.httpError 408
          ("Detection timed out after " ++ toString timeout ++ " seconds") ∧
    (detect_objects_await (detect_objects_enqueue sys0 uid akid rsize img).1
        sys0.store.nextLogId timeout).1
      = (detect_objects_enqueue sys0 uid akid rsize img).1 ∧
    (detect_objects_enqueue sys0 uid akid rsize img).1.redis
        REDIS_DETECTION_QUEUE
      = [WireMsg.jobW { job_id := sys0.store.nextLogId, image := img }] ∧
    lookupDetection
        (worker_step env
          (detect_objects_enqueue sys0 uid akid rsize img).1).store
        sys0.store.nextLogId
      = some { id := sys0.store.nextDetId, job_id := sys0.store.nextLogId,
               model_name := DEFAULT_MODEL, image_width := w,
               image_height := h, image_hash := ihash,
               processing_time := env.procTime } ∧
    (worker_step env
        (detect_objects_enqueue sys0 uid akid rsize img).1).redis
        (result_key sys0.store.nextLogId)
      = [WireMsg.resW { job_id := sys0.store.nextLogId, success := true,
                        processing_time := some env.procTime,
                        detections_count := some dets.length }] := by
  have hpost := submit_worker_post env sys0 uid akid rsize img dets w h
    ihash hWF hq hslot hok hdb hsl
  set sys1 := (detect_objects_enqueue sys0 uid akid rsize img).1 with hsys1
  have hslot1 : sys1.redis (result_key sys0.store.nextLogId) = [] := by
    show redisLpush sys0.redis REDIS_DETECTION_QUEUE
      (WireMsg.jobW { job_id := sys0.store.nextLogId, image := img })
      (result_key sys0.store.nextLogId) = _
    rw [redisLpush_other _ _ _ _ (result_key_ne_queue _), hslot]
  have hq1 : sys1.redis REDIS_DETECTION_QUEUE
      = [WireMsg.jobW { job_id := sys0.store.nextLogId, image := img }] := by
    show redisLpush sys0.redis REDIS_DETECTION_QUEUE
      (WireMsg.jobW { job_id := sys0.store.nextLogId, image := img })
      REDIS_DETECTION_QUEUE = _
    rw [redisLpush_same, hq]
  have hnone : redisBrpop sys1.redis (result_key sys0.store.nextLogId)
      = none := by
    unfold redisBrpop
    rw [hslot1]
    rfl
  have htry : detect_objects_await_try sys1 sys0.store.nextLogId timeout
      = (sys1, InnerRes.raised 408
          ("Detection timed out after " ++ toString timeout ++ " seconds")) := by
    unfold detect_objects_await_try
    rw [hnone]
  have hawait : detect_objects_await sys1 sys0.store.nextLogId timeout
      = (sys1, Outcome.httpError 408
          ("Detection timed out after " ++ toString timeout ++ " seconds")) := by
    unfold detect_objects_await
    rw [htry]
  exact ⟨by rw [hawait], by rw [hawait], hq1, hpost.1, hpost.2.2⟩

/-- Witness for C7 at the concrete job 2 with a 30-unit timeout. -/
theorem C7_timeout_leaves_job_in_flight_witness :
    (detect_objects_await (detect_objects_enqueue idleSys 7 9 3 "img").1
        2 30).2
      = Outcome.httpError 408 "Detection timed out after 30 seconds" ∧
    lookupDetection
        (worker_step detEnv
          (detect_objects_enqueue idleSys 7 9 3 "img").1).store 2
      = some { id := 1, job_id := 2, model_name := DEFAULT_MODEL,
               image_width := 640, image_height := 480,
               image_hash := "hash", processing_time := 5 } := by
  have h := C7_timeout_leaves_job_in_flight detEnv idleSys 7 9 3 30 "img"
    [sampleDet] 640 480 "hash" (by decide) rfl rfl rfl rfl rfl
  exact ⟨h.1, h.2.2.2.1⟩

/-- A system in which the worker has already published a failure
acknowledgment carrying error text "boom" to job 1's Response Slot. -/
def failSlotSys : Sys :=
  { store := sampleStore,
    redis := fun k => if k = result_key 1
      then [WireMsg.resW { job_id := 1, success := false,
                           error_message := some "boom" }] else [] }

/-- C1, evaluated at the failing input: when a failure acknowledgment
with error text "boom" is waiting on job 1's Response Slot, the inner try
of `detect_objects` does raise the intended distinct error — 500
"Detection failed: boom" — but the enclosing `except Exception` handler
(`app.py` line 167) catches that `HTTPException` and replaces it with the
408 timeout error, so the caller receives exactly the timeout outcome and
cannot distinguish the worker's failure from a timeout. -/
theorem C1_failure_reported_as_timeout :
    (detect_objects_await_try failSlotSys 1 30).2
      = InnerRes.raised 500 "Detection failed: boom" ∧
    (detect_objects_await failSlotSys 1 30).2
      = Outcome.httpError 408 "Detection timed out after 30 seconds" := by
  constructor <;> rfl
